import Mathlib

/-!
Verification of the prompt-templating and execution core of
`langchain-llm-chain-basics` (`src/main.py`).

The script itself is a thin wrapper: `create_prompt_template`, `create_chain`
and `create_llm` forward their arguments to the external `langchain` /
`langchain_openai` libraries, so the template engine's own semantics
(construct / render / invoke) are not present under `src/`.  Those operations
are modelled here from the specification's component design (section 4), which
defines them as a language-agnostic prompt-template engine.  The parts that do
live in `src/main.py` — `load_environment`, the `main` startup sequence and
`interactive_mode` — are embedded directly from the source, with the process
environment, the console input stream and the model backend passed in as
explicit parameters.
-/

deriving instance DecidableEq for Except

/-- A parsed piece of a template text: either one literal character or a
named placeholder `\x7bname\x7d`. -/
inductive Seg where
  | lit (c : Char)
  | ph (name : String)
deriving DecidableEq

/-- Parser state for the single-pass scan over the template text:
outside any placeholder (`txt`), just after a single `\x7b` (`opn`),
just after a single `\x7d` (`cls`), or inside a placeholder name (`nam`),
holding the name characters read so far in reverse. -/
inductive PState where
  | txt
  | opn
  | cls
  | nam (acc : List Char)
deriving DecidableEq

/-- Segments contributed by the scanner state when the text ends. -/
def closeP : PState → List Seg
  | PState.txt => []
  | PState.opn => []
  | PState.cls => [Seg.lit '}']
  | PState.nam _ => []

/-- Modelled from the spec: the single-pass placeholder scan underlying both
`construct`-time validation and `render`-time substitution (the implementation
lives in the external `langchain` library, not under `src/`).  Placeholder
syntax per the spec: a name wrapped in single braces; a doubled brace is an
escaped literal brace. -/
def parseSM : PState → List Char → List Seg
  | st, [] => closeP st
  | PState.txt, c :: rest =>
      if c = '{' then parseSM PState.opn rest
      else if c = '}' then parseSM PState.cls rest
      else Seg.lit c :: parseSM PState.txt rest
  | PState.opn, c :: rest =>
      if c = '{' then Seg.lit '{' :: parseSM PState.txt rest
      else if c = '}' then Seg.ph "" :: parseSM PState.txt rest
      else parseSM (PState.nam [c]) rest
  | PState.cls, c :: rest =>
      if c = '}' then Seg.lit '}' :: parseSM PState.txt rest
      else if c = '{' then Seg.lit '}' :: parseSM PState.opn rest
      else Seg.lit '}' :: Seg.lit c :: parseSM PState.txt rest
  | PState.nam acc, c :: rest =>
      if c = '}' then Seg.ph (String.mk acc.reverse) :: parseSM PState.txt rest
      else parseSM (PState.nam (c :: acc)) rest

/-- The name carried by a placeholder segment, if any. -/
def segName : Seg → Option String
  | Seg.lit _ => none
  | Seg.ph n => some n

/-- The set (as a list, in order of occurrence) of placeholder names found in
a template text. -/
def placeholders (text : String) : List String :=
  (parseSM PState.txt text.data).filterMap segName

/-- The key set of a values mapping (a render request). -/
def keys (values : List (String × String)) : List String :=
  values.map Prod.fst

/-- The value supplied for parameter `n` (defaulting to `""`; render-time
validation guarantees the parameter is present before this default could
matter). -/
def valueOf (values : List (String × String)) (n : String) : String :=
  match values.find? (fun p => decide (p.1 = n)) with
  | some p => p.2
  | none => ""

/-- The characters a single parsed segment contributes to the rendered output:
a literal character stands for itself, and a placeholder is replaced verbatim
by the characters of its supplied value (which are not re-scanned). -/
def segSubst (values : List (String × String)) : Seg → List Char
  | Seg.lit c => [c]
  | Seg.ph n => (valueOf values n).data

/-- Modelled from the spec: single-pass substitution — parse the text once and
replace each placeholder occurrence verbatim by its value. -/
def substChars (values : List (String × String)) (cs : List Char) : List Char :=
  ((parseSM PState.txt cs).map (segSubst values)).flatten

/-- A Template: an immutable text together with its declared parameter names
(spec section 3; constructed in `src/main.py` via `create_prompt_template`). -/
structure Template where
  text : String
  declared : List String
deriving DecidableEq

/-- Construction-time error: the placeholders found in the text and the
declared parameter set disagree (missing and extra names are reported). -/
inductive TemplateError where
  | templateMismatch (missingNames extraNames : List String)
deriving DecidableEq

/-- Render-time errors: a declared parameter has no supplied value, or a
supplied value names a parameter the template does not declare. -/
inductive RenderError where
  | missingParameterError (name : String)
  | unexpectedParameterError (name : String)
deriving DecidableEq

/-- Declared parameters that do not occur as placeholders in the text. -/
def missingOf (text : String) (declared : List String) : List String :=
  declared.filter (fun n => decide (n ∉ placeholders text))

/-- Placeholders occurring in the text that are not declared. -/
def extraOf (text : String) (declared : List String) : List String :=
  (placeholders text).filter (fun n => decide (n ∉ declared))

/-- Modelled from the spec: `construct(text, declared_parameters)` validates
that the placeholder set found in the text equals the declared set, failing
with `TemplateMismatchError` (listing the missing and extra names) otherwise.
In `src/main.py` this is `create_prompt_template`, which forwards to the
external library's `PromptTemplate`. -/
def construct (text : String) (declared : List String) :
    Except TemplateError Template :=
  if missingOf text declared = [] ∧ extraOf text declared = [] then
    Except.ok ⟨text, declared⟩
  else
    Except.error (TemplateError.templateMismatch (missingOf text declared)
      (extraOf text declared))

/-- Modelled from the spec: `render(template, values)` fails with
`MissingParameterError` if a declared parameter has no entry in `values`,
fails with `UnexpectedParameterError` if `values` names an undeclared
parameter, and otherwise substitutes every placeholder in one pass. -/
def render (t : Template) (values : List (String × String)) :
    Except RenderError String :=
  match t.declared.find? (fun n => decide (n ∉ keys values)) with
  | some n => Except.error (RenderError.missingParameterError n)
  | none =>
    match (keys values).find? (fun n => decide (n ∉ t.declared)) with
    | some n => Except.error (RenderError.unexpectedParameterError n)
    | none => Except.ok (String.mk (substChars values t.text.data))

/-- The LLM configuration built by `create_llm` in `src/main.py`: a model
identifier and a temperature (held as a rational here; `invoke` never
inspects it). -/
structure ChatOpenAI where
  model : String
  temperature : ℚ
deriving DecidableEq

/-- `create_llm` from `src/main.py`: builds the model configuration. -/
def create_llm (model : String) (temperature : ℚ) : ChatOpenAI :=
  ⟨model, temperature⟩

/-- `create_chain` from `src/main.py`: pairs a model configuration with a
prompt template; it has no behavior of its own. -/
structure LLMChain where
  llm : ChatOpenAI
  prompt : Template
deriving DecidableEq

/-- `create_chain` from `src/main.py`. -/
def create_chain (llm : ChatOpenAI) (prompt : Template) : LLMChain :=
  ⟨llm, prompt⟩

/-- Invocation error: wraps the backend's original failure detail. -/
inductive BackendError (ε : Type) where
  | backendInvocationError (detail : ε)
deriving DecidableEq

/-- Modelled from the spec: `invoke(rendered_prompt, model_backend, options)`
is a pure pass-through — it submits the prompt and options to the backend
exactly once, returns the backend's response text unchanged on success, and
wraps any backend failure as a `BackendInvocationError` carrying the original
detail.  In `src/main.py` this is `chain.run`, implemented by the external
library. -/
def invoke {ε : Type} (rendered_prompt : String)
    (model_backend : String → ChatOpenAI → Except ε String)
    (options : ChatOpenAI) : Except (BackendError ε) String :=
  match model_backend rendered_prompt options with
  | Except.ok response => Except.ok response
  | Except.error e => Except.error (BackendError.backendInvocationError e)

/-- Startup configuration error (`ValueError` in `load_environment`). -/
inductive ConfigurationError where
  | missingApiKey
deriving DecidableEq

/-- `load_environment` from `src/main.py`: after loading the `.env` file, it
raises when `os.getenv("OPENAI_API_KEY")` is falsy — i.e. when the variable is
absent or the empty string.  The process environment is passed in as an
explicit function. -/
def load_environment (env : String → Option String) :
    Except ConfigurationError Unit :=
  match env "OPENAI_API_KEY" with
  | none => Except.error ConfigurationError.missingApiKey
  | some s =>
    if s = "" then Except.error ConfigurationError.missingApiKey
    else Except.ok ()

/-- Template text of demo 1 (`demonstrate_simple_chain`). -/
def demo1_text : String :=
  "Explain {topic} in simple terms that a beginner could understand."

/-- Template text of demo 2 (`demonstrate_creative_chain`). -/
def demo2_text : String :=
  "Write a short creative story (2-3 paragraphs) about {subject} in the genre of {genre}."

/-- Template text of demo 3 (`demonstrate_structured_output_chain`). -/
def demo3_text : String :=
  "Analyze the following concept and provide a structured response:\n\nConcept: {concept}\n\nPlease provide:\n1. Definition (1-2 sentences)\n2. Key characteristics (3 bullet points)\n3. Real-world applications (2-3 examples)\n4. Related concepts (2-3 items)"

/-- Template text of demo 4 (`demonstrate_translation_chain`). -/
def demo4_text : String :=
  "Translate the following text from {source_language} to {target_language}.\n\nText: {text}\n\nTranslation:"

/-- The prompts the four demonstration functions of `src/main.py` send to the
backend, in program order. -/
def demo_prompts : List String :=
  (["machine learning", "neural networks", "natural language processing"].map
    (fun topic => String.mk (substChars [("topic", topic)] demo1_text.data))) ++
  [String.mk (substChars
      [("subject", "a robot learning to paint"), ("genre", "science fiction")]
      demo2_text.data),
   String.mk (substChars
      [("concept", "API (Application Programming Interface)")] demo3_text.data),
   String.mk (substChars
      [("source_language", "English"), ("target_language", "Spanish"),
       ("text", "Artificial intelligence is transforming how we interact with technology.")]
      demo4_text.data)]

/-- `main` from `src/main.py`, up to the demonstrations: `load_environment` is
called first and any configuration error propagates before a single backend
invocation happens; on success the four demos run and each demo prompt is
submitted to the backend. -/
def main_run (env : String → Option String) (backend : String → String) :
    Except ConfigurationError (List String) :=
  match load_environment env with
  | Except.error e => Except.error e
  | Except.ok _ => Except.ok (demo_prompts.map backend)

/-- Python's `str.strip()` as used in `interactive_mode`: drop whitespace from
both ends. -/
def pyStrip (s : String) : String :=
  String.mk (((s.data.dropWhile Char.isWhitespace).reverse.dropWhile
    Char.isWhitespace).reverse)

/-- Python's `str.lower()` as used in `interactive_mode` (ASCII case fold). -/
def pyLower (s : String) : String :=
  String.mk (s.data.map Char.toLower)

/-- The fixed one-parameter template of `interactive_mode`. -/
def interactive_template : Template :=
  ⟨"You are a helpful AI assistant. Answer the following question clearly and concisely:\n\n{question}",
   ["question"]⟩

/-- The prompt `chain.run(question=question)` submits in `interactive_mode`:
the question substituted into the fixed template. -/
def formatQuestion (q : String) : String :=
  String.mk (substChars [("question", q)] interactive_template.text.data)

/-- Observable events of one pass of the interactive loop. -/
inductive LoopEvent where
  | reprompt
  | response (question answer : String)
  | goodbye
deriving DecidableEq

/-- Does this event represent a backend invocation? -/
def isResponse : LoopEvent → Bool
  | LoopEvent.response _ _ => true
  | _ => false

/-- `interactive_mode` from `src/main.py`, with the console input stream as an
explicit list of lines and the model backend as a function.  Each line is
stripped; a (case-insensitively) `exit` line ends the loop; an empty stripped
line re-prompts without calling the backend; any other line is substituted
into the fixed question template, submitted, and its response recorded. -/
def interactive_mode (backend : String → String) : List String → List LoopEvent
  | [] => []
  | line :: rest =>
    if pyLower (pyStrip line) = "exit" then [LoopEvent.goodbye]
    else if pyStrip line = "" then
      LoopEvent.reprompt :: interactive_mode backend rest
    else
      LoopEvent.response (pyStrip line) (backend (formatQuestion (pyStrip line)))
        :: interactive_mode backend rest

/-- A Template reused across a sequence of render requests, as in
`demonstrate_simple_chain`'s loop over topics: each request is rendered
against the same immutable template. -/
def renderSequence (t : Template) (requests : List (List (String × String))) :
    List (Except RenderError String) :=
  requests.map (fun v => render t v)

/-- The template of the spec's single-pass-substitution scenario. -/
def valueTemplate : Template := ⟨"Value: {name}", ["name"]⟩

/-- The construction condition (no missing and no extra names) is exactly
set-equality of the found placeholders and the declared parameters. -/
theorem construct_cond_iff (text : String) (declared : List String) :
    (missingOf text declared = [] ∧ extraOf text declared = []) ↔
      ∀ n, n ∈ placeholders text ↔ n ∈ declared := by
  constructor
  · rintro ⟨hm, he⟩ n
    constructor
    · intro hn
      have := List.filter_eq_nil_iff.mp he n hn
      simpa using this
    · intro hn
      have := List.filter_eq_nil_iff.mp hm n hn
      simpa using this
  · intro h
    constructor
    · exact List.filter_eq_nil_iff.mpr (fun n hn => by simpa using (h n).mpr hn)
    · exact List.filter_eq_nil_iff.mpr (fun n hn => by simpa using (h n).mp hn)

/-- Claim C2: template construction succeeds exactly when the set of
placeholder names found in the text equals the declared parameter set, and
whenever the two sets differ in either direction it fails with a
`TemplateMismatchError` reporting a non-empty list of missing and/or extra
names. -/
theorem construct_mismatch_detection (text : String) (declared : List String) :
    (construct text declared = Except.ok ⟨text, declared⟩ ↔
      ∀ n, n ∈ placeholders text ↔ n ∈ declared) ∧
    ((¬ ∀ n, n ∈ placeholders text ↔ n ∈ declared) →
      ∃ ms es, construct text declared =
          Except.error (TemplateError.templateMismatch ms es) ∧ ms ++ es ≠ []) := by
  constructor
  · unfold construct
    split_ifs with hcond
    · constructor
      · intro _
        exact (construct_cond_iff text declared).mp hcond
      · intro _
        rfl
    · constructor
      · intro h
        simp at h
      · intro h
        exact absurd ((construct_cond_iff text declared).mpr h) hcond
  · intro h
    unfold construct
    split_ifs with hcond
    · exact absurd ((construct_cond_iff text declared).mp hcond) h
    · refine ⟨_, _, rfl, ?_⟩
      intro hnil
      exact hcond (List.append_eq_nil.mp hnil)

/-- Witness for C2: `construct("Hello {name}", ["name", "extra"])` fails with
a reported mismatch, while the matching declaration is accepted. -/
theorem construct_mismatch_detection_witness :
    (∃ ms es, construct "Hello {name}" ["name", "extra"] =
        Except.error (TemplateError.templateMismatch ms es) ∧ ms ++ es ≠ []) ∧
    construct "Hello {name}" ["name"] =
      Except.ok ⟨"Hello {name}", ["name"]⟩ := by
  constructor
  · refine (construct_mismatch_detection "Hello {name}" ["name", "extra"]).2 ?_
    intro hall
    have h2 := (hall "extra").mpr (by decide)
    revert h2
    decide
  · refine (construct_mismatch_detection "Hello {name}" ["name"]).1.mpr ?_
    intro n
    rw [show placeholders "Hello {name}" = ["name"] from by decide]

/-- Claim C1: after a successful `construct(text, P)`, rendering with a values
mapping whose key set is exactly `P` supplies a value for every placeholder
and succeeds, producing the text with every placeholder occurrence replaced
verbatim by its corresponding value (`substChars` substitutes each parsed
placeholder segment by the supplied value's characters and keeps every literal
character). -/
theorem construct_render_round_trip (text : String) (P : List String)
    (T : Template) (values : List (String × String))
    (hc : construct text P = Except.ok T)
    (hk : ∀ n, n ∈ keys values ↔ n ∈ P) :
    (∀ n, n ∈ placeholders text → n ∈ keys values) ∧
    render T values = Except.ok (String.mk (substChars values text.data)) := by
  unfold construct at hc
  split_ifs at hc with hcond
  injection hc with hT
  subst hT
  have hset := (construct_cond_iff text P).mp hcond
  constructor
  · intro n hn
    exact (hk n).mpr ((hset n).mp hn)
  · have h1 : (P.find? fun n => !decide (n ∈ keys values)) = none :=
      List.find?_eq_none.mpr (fun n hn => by simpa using (hk n).mpr hn)
    have h2 : ((keys values).find? fun n => !decide (n ∈ P)) = none :=
      List.find?_eq_none.mpr (fun n hn => by simpa using (hk n).mp hn)
    simp [render, h1, h2]

/-- Witness for C1: the spec's scenario — text `"Explain {topic} in simple
terms."` with parameter `topic` rendered with `"neural networks"` yields
`"Explain neural networks in simple terms."`. -/
theorem construct_render_round_trip_witness :
    construct "Explain {topic} in simple terms." ["topic"] =
      Except.ok ⟨"Explain {topic} in simple terms.", ["topic"]⟩ ∧
    render ⟨"Explain {topic} in simple terms.", ["topic"]⟩
        [("topic", "neural networks")] =
      Except.ok "Explain neural networks in simple terms." := by
  have h := construct_render_round_trip "Explain {topic} in simple terms."
    ["topic"] ⟨"Explain {topic} in simple terms.", ["topic"]⟩
    [("topic", "neural networks")] (by decide) (fun _ => Iff.rfl)
  exact ⟨by decide, h.2.trans (by decide)⟩

/-- Claim C3: whenever the key set of the values mapping differs from the
template's declared parameter set, `render` fails with a
`MissingParameterError` or an `UnexpectedParameterError` — it never silently
ignores the mismatch. -/
theorem render_strict_validation (t : Template) (values : List (String × String))
    (h : ¬ ∀ n, n ∈ keys values ↔ n ∈ t.declared) :
    (∃ n, render t values = Except.error (RenderError.missingParameterError n)) ∨
    (∃ n, render t values = Except.error (RenderError.unexpectedParameterError n)) := by
  by_cases hmiss : ∀ n ∈ t.declared, n ∈ keys values
  · right
    have h1 : (t.declared.find? fun n => !decide (n ∈ keys values)) = none :=
      List.find?_eq_none.mpr (fun n hn => by simpa using hmiss n hn)
    push_neg at h
    obtain ⟨n, hn⟩ := h
    have hkey : n ∈ keys values ∧ n ∉ t.declared := by
      rcases hn with ⟨h2, h3⟩ | ⟨h2, h3⟩
      · exact ⟨h2, h3⟩
      · exact absurd (hmiss n h3) h2
    have hs : ((keys values).find? fun n => !decide (n ∈ t.declared)).isSome := by
      rw [List.find?_isSome]
      exact ⟨n, hkey.1, by simpa using hkey.2⟩
    obtain ⟨m, hm⟩ := Option.isSome_iff_exists.mp hs
    exact ⟨m, by simp [render, h1, hm]⟩
  · left
    push_neg at hmiss
    obtain ⟨n, hn, hnk⟩ := hmiss
    have hs : (t.declared.find? fun n => !decide (n ∈ keys values)).isSome := by
      rw [List.find?_isSome]
      exact ⟨n, hn, by simpa using hnk⟩
    obtain ⟨m, hm⟩ := Option.isSome_iff_exists.mp hs
    exact ⟨m, by simp [render, hm]⟩

/-- Witness for C3: rendering with no values fails (missing parameter), and
rendering with an undeclared extra key fails (the mismatch is reported, not
ignored). -/
theorem render_strict_validation_witness :
    ((∃ n, render ⟨"Hello {name}", ["name"]⟩ [] =
        Except.error (RenderError.missingParameterError n)) ∨
     (∃ n, render ⟨"Hello {name}", ["name"]⟩ [] =
        Except.error (RenderError.unexpectedParameterError n))) ∧
    ((∃ n, render ⟨"Hello {name}", ["name"]⟩ [("name", "x"), ("other", "y")] =
        Except.error (RenderError.missingParameterError n)) ∨
     (∃ n, render ⟨"Hello {name}", ["name"]⟩ [("name", "x"), ("other", "y")] =
        Except.error (RenderError.unexpectedParameterError n))) := by
  constructor
  · refine render_strict_validation _ _ ?_
    intro hall
    have h2 := (hall "name").mpr (by decide)
    revert h2
    decide
  · refine render_strict_validation _ _ ?_
    intro hall
    have h2 := (hall "other").mp (by decide)
    revert h2
    decide

/-- Claim C4: substitution is single-pass — a value is inserted literally,
without being re-scanned: for the template `"Value: {name}"`, rendering with
any value `v` yields exactly `"Value: " ++ v`, and in particular the value
`"{other}"` yields `"Value: {other}"` with the inserted braces untouched. -/
theorem single_pass_substitution (v : String) :
    construct "Value: {name}" ["name"] = Except.ok valueTemplate ∧
    render valueTemplate [("name", v)] = Except.ok ("Value: " ++ v) ∧
    render valueTemplate [("name", "{other}")] = Except.ok "Value: {other}" := by
  refine ⟨by decide, ?_, by decide⟩
  obtain ⟨vd⟩ := v
  have h1 : render valueTemplate [("name", String.mk vd)] =
      Except.ok (String.mk
        ('V' :: 'a' :: 'l' :: 'u' :: 'e' :: ':' :: ' ' :: (vd ++ []))) := rfl
  have h2 : ("Value: " ++ String.mk vd) =
      String.mk ('V' :: 'a' :: 'l' :: 'u' :: 'e' :: ':' :: ' ' :: vd) := rfl
  rw [h1, List.append_nil, h2]

/-- Claim C5: `render` is deterministic and side-effect-free — it is embedded
as a pure function of the template and the values mapping alone, so any two
calls on the same inputs return equal results, and equal successful results
are byte-identical strings. -/
theorem render_deterministic (t : Template) (values : List (String × String))
    (s1 s2 : String)
    (h1 : render t values = Except.ok s1) (h2 : render t values = Except.ok s2) :
    s1 = s2 ∧ s1.data = s2.data := by
  have h := h1.symm.trans h2
  injection h with h
  exact ⟨h, congrArg String.data h⟩

/-- Witness for C5: two renders of the scenario template agree byte-for-byte. -/
theorem render_deterministic_witness :
    render ⟨"Explain {topic} in simple terms.", ["topic"]⟩
        [("topic", "neural networks")] =
      Except.ok "Explain neural networks in simple terms." ∧
    ("Explain neural networks in simple terms." : String).data =
      ("Explain neural networks in simple terms." : String).data :=
  ⟨by decide,
   (render_deterministic ⟨"Explain {topic} in simple terms.", ["topic"]⟩
      [("topic", "neural networks")] "Explain neural networks in simple terms."
      "Explain neural networks in simple terms." (by decide) (by decide)).2⟩

/-- Claim C6: `invoke` is a pure pass-through: if the backend fails, the
failure surfaces as a `BackendInvocationError` carrying the backend's original
detail and no output is produced; if the backend succeeds, its response text
is returned unchanged.  By definition `invoke` consults the backend exactly
once and performs no retry, caching or response validation. -/
theorem invoke_error_propagation {ε : Type} (p : String)
    (model_backend : String → ChatOpenAI → Except ε String)
    (options : ChatOpenAI) :
    (∀ e, model_backend p options = Except.error e →
      invoke p model_backend options =
        Except.error (BackendError.backendInvocationError e)) ∧
    (∀ r, model_backend p options = Except.ok r →
      invoke p model_backend options = Except.ok r) := by
  constructor
  · intro e he
    simp [invoke, he]
  · intro r hr
    simp [invoke, hr]

/-- Witness for C6: a failing backend's detail is wrapped and surfaced; a
succeeding backend's response is returned unchanged. -/
theorem invoke_error_propagation_witness :
    invoke "Explain machine learning in simple terms."
        (fun _ _ => Except.error "network error: connection refused")
        (create_llm "gpt-3.5-turbo" (7 / 10)) =
      Except.error
        (BackendError.backendInvocationError
          "network error: connection refused") ∧
    invoke "Explain machine learning in simple terms."
        (fun _ _ => (Except.ok "Machine learning is..." : Except String String))
        (create_llm "gpt-3.5-turbo" (7 / 10)) =
      Except.ok "Machine learning is..." :=
  ⟨(invoke_error_propagation "Explain machine learning in simple terms."
      (fun _ _ => Except.error "network error: connection refused")
      (create_llm "gpt-3.5-turbo" (7 / 10))).1
      "network error: connection refused" rfl,
   (invoke_error_propagation "Explain machine learning in simple terms."
      (fun _ _ => (Except.ok "Machine learning is..." : Except String String))
      (create_llm "gpt-3.5-turbo" (7 / 10))).2 "Machine learning is..." rfl⟩

/-- Claim C7: when `OPENAI_API_KEY` is absent from the environment, startup
fails with the configuration error and no backend invocation happens (the
error result carries no demo invocations); when the key is present and
non-empty, `load_environment` succeeds and the program proceeds to the demos. -/
theorem startup_requires_api_key (env : String → Option String)
    (backend : String → String) :
    (env "OPENAI_API_KEY" = none →
      main_run env backend = Except.error ConfigurationError.missingApiKey) ∧
    (∀ s, env "OPENAI_API_KEY" = some s → s ≠ "" →
      load_environment env = Except.ok () ∧
      main_run env backend = Except.ok (demo_prompts.map backend)) := by
  constructor
  · intro h
    simp [main_run, load_environment, h]
  · intro s hs hne
    have hl : load_environment env = Except.ok () := by
      simp [load_environment, hs, hne]
    exact ⟨hl, by simp [main_run, hl]⟩

/-- Witness for C7: an environment without the key aborts startup; an
environment with a non-empty key loads successfully. -/
theorem startup_requires_api_key_witness :
    main_run (fun _ => none) (fun s => s) =
      Except.error ConfigurationError.missingApiKey ∧
    load_environment (fun _ => some "sk-test-key") = Except.ok () :=
  ⟨(startup_requires_api_key (fun _ => none) (fun s => s)).1 rfl,
   ((startup_requires_api_key (fun _ => some "sk-test-key") (fun s => s)).2
      "sk-test-key" rfl (by decide)).1⟩

/-- Lowercasing fixes every whitespace character. -/
theorem whitespace_toLower (c : Char) (h : c.isWhitespace = true) :
    Char.toLower c = c := by
  simp [Char.isWhitespace] at h
  rcases h with ((h | h) | h) | h <;> subst h <;> decide

/-- A line whose lowercased form is exactly `"exit"` contains no surrounding
whitespace, so stripping leaves it unchanged. -/
theorem strip_of_lower_exit (line : String) (h : pyLower line = "exit") :
    pyStrip line = line := by
  obtain ⟨l⟩ := line
  have hd : l.map Char.toLower = ['e', 'x', 'i', 't'] := by
    have h2 := congrArg String.data h
    simpa [pyLower] using h2
  rcases l with _ | ⟨a, _ | ⟨b, _ | ⟨c, _ | ⟨d, _ | ⟨e, l⟩⟩⟩⟩⟩ <;> simp_all
  obtain ⟨ha, hb, hc, hd⟩ := hd
  have hwa : a.isWhitespace = false := by
    by_cases hw : a.isWhitespace
    · rw [whitespace_toLower a hw] at ha
      subst ha
      simp at hw
    · simpa using hw
  have hwd : d.isWhitespace = false := by
    by_cases hw : d.isWhitespace
    · rw [whitespace_toLower d hw] at hd
      subst hd
      simp at hw
    · simpa using hw
  simp [pyStrip, List.dropWhile_cons, hwa, hwd]

/-- Claim C8: the interactive loop ends exactly on a case-insensitive `exit`
input — in particular every raw input whose lowercased form equals `"exit"`
ends the loop, as does any input that strips and lowercases to `"exit"` — and
every other input that is non-empty after stripping is forwarded as the single
parameter of the fixed question template, its response recorded, and the loop
continues on the remaining input. -/
theorem interactive_loop_behavior (backend : String → String) (line : String)
    (rest : List String) :
    (pyLower line = "exit" →
      interactive_mode backend (line :: rest) = [LoopEvent.goodbye]) ∧
    (pyLower (pyStrip line) = "exit" →
      interactive_mode backend (line :: rest) = [LoopEvent.goodbye]) ∧
    (pyLower (pyStrip line) ≠ "exit" → pyStrip line ≠ "" →
      interactive_mode backend (line :: rest) =
        LoopEvent.response (pyStrip line)
          (backend (formatQuestion (pyStrip line))) ::
          interactive_mode backend rest) := by
  refine ⟨?_, ?_, ?_⟩
  · intro h
    have hs := strip_of_lower_exit line h
    simp [interactive_mode, hs, h]
  · intro h
    simp [interactive_mode, h]
  · intro h1 h2
    simp [interactive_mode, h1, h2]

/-- Witness for C8: `"EXIT"` and `"  exit  "` end the loop; a question is
forwarded and answered. -/
theorem interactive_loop_behavior_witness :
    interactive_mode (fun _ => "a response") ["EXIT"] = [LoopEvent.goodbye] ∧
    interactive_mode (fun _ => "a response") ["  exit  "] =
      [LoopEvent.goodbye] ∧
    interactive_mode (fun _ => "a response") ["What is AI?"] =
      [LoopEvent.response "What is AI?" "a response"] := by
  refine ⟨?_, ?_, ?_⟩
  · exact (interactive_loop_behavior (fun _ => "a response") "EXIT" []).1
      (by decide)
  · exact (interactive_loop_behavior (fun _ => "a response") "  exit  " []).2.1
      (by decide)
  · have h := (interactive_loop_behavior (fun _ => "a response")
      "What is AI?" []).2.2 (by decide) (by decide)
    rw [h]
    decide

/-- Claim C9: a constructed Template is immutable and reusable — in a sequence
of renders against the same template, the i-th result is exactly the
independent `render` of the i-th request (it depends only on the template and
that request, not on earlier renders), and a sequence splits into independent
halves. -/
theorem template_reuse_independent (t : Template)
    (reqs more : List (List (String × String))) (i : Nat) :
    (renderSequence t reqs)[i]? = (reqs[i]?).map (fun v => render t v) ∧
    renderSequence t (reqs ++ more) =
      renderSequence t reqs ++ renderSequence t more := by
  constructor
  · simp [renderSequence]
  · simp [renderSequence]

/-- Claim C10: an input that strips to the empty string is never forwarded to
the backend: the loop emits the re-prompt message, performs no response event
in that step, and continues with the remaining input. -/
theorem blank_input_reprompts (backend : String → String) (line : String)
    (rest : List String) (h : pyStrip line = "") :
    interactive_mode backend (line :: rest) =
      LoopEvent.reprompt :: interactive_mode backend rest ∧
    (interactive_mode backend (line :: rest)).countP isResponse =
      (interactive_mode backend rest).countP isResponse := by
  have hx : pyLower "" ≠ "exit" := by decide
  have heq : interactive_mode backend (line :: rest) =
      LoopEvent.reprompt :: interactive_mode backend rest := by
    simp [interactive_mode, hx, h]
  refine ⟨heq, ?_⟩
  rw [heq]
  simp [List.countP_cons, isResponse]

/-- Witness for C10: a whitespace-only line re-prompts and adds no backend
call. -/
theorem blank_input_reprompts_witness :
    interactive_mode (fun _ => "a response") ["   ", "exit"] =
      [LoopEvent.reprompt, LoopEvent.goodbye] ∧
    (interactive_mode (fun _ => "a response") ["   ", "exit"]).countP
        isResponse =
      (interactive_mode (fun _ => "a response") ["exit"]).countP isResponse := by
  have h := blank_input_reprompts (fun _ => "a response") "   " ["exit"]
    (by decide)
  exact ⟨h.1.trans (by decide), h.2⟩
